import Mathlib

/-!
# Verification of the Quote Fetcher retry/classification state machine

Shallow embedding of `src/price_client.py` (`get_hyperliquid_price`) and of
the exception-class hierarchy declared in `src/exceptions.py`.

The transport (`requests.get`) is modelled as an oracle mapping the attempt
index to the outcome of that HTTP round trip.  Python floats appearing in the
tested domain (prices, backoff durations) are modelled as rationals `ℚ`.
Error messages are modelled as the exact strings built by the Python
f-strings, with the rendering of embedded sub-values (`{data}`, the
`requests` HTTPError text) carried abstractly where the Python rendering is
not load-bearing.
-/

/-- A Python float as produced by `response.json()` and by `float(...)`:
either a finite value — carried exactly as a rational; rounding to binary64
is not modelled, which changes neither signs nor control flow in this code
— or one of the non-finite values `inf`, `-inf`, `nan`.  Python's JSON
decoder produces the non-finite ones from valid out-of-range real literals
(`1e400` decodes to `inf`, `-1e400` to `-inf`: the lexed number token is
converted with `float`, which saturates instead of raising) and from the
lenient tokens `Infinity`, `-Infinity`, `NaN` that `json.loads` accepts by
default. -/
inductive PyFloat where
  | finite (q : ℚ) : PyFloat
  | inf : PyFloat
  | negInf : PyFloat
  | nan : PyFloat
deriving DecidableEq, Repr

/-- The JSON value found at the `"price"` key of the decoded response body
(`data.get("price")` in the source).  `missing` is an absent key; `null` is a
JSON null; both make `data.get("price")` return Python `None`.  `jbool`,
`jint`, `jnum` are the values for which Python's
`isinstance(price_value, (int, float))` holds (`bool` is a subtype of `int`):
`jint` is a JSON integer literal, decoded exactly as a Python int of
arbitrary magnitude, and `jnum` is a JSON real literal or constant, decoded
as a Python float (possibly non-finite, see `PyFloat`).  `jother` is any
other JSON value (string, array, object), carried with its rendering. -/
inductive JsonPrice where
  | missing : JsonPrice
  | null : JsonPrice
  | jbool (b : Bool) : JsonPrice
  | jint (n : Int) : JsonPrice
  | jnum (x : PyFloat) : JsonPrice
  | jother (rendering : String) : JsonPrice
deriving DecidableEq, Repr

/-- The body of an HTTP response, as seen through `response.json()`:
either a decoded JSON object, carried as its `"price"` entry together with a
rendering of the whole payload (used by the bad-data message `{data}`), or a
payload on which `response.json()` raises (a JSON-decode failure), carried
as the rendering of the raised exception. -/
inductive Body where
  | json (price : JsonPrice) (dataRepr : String) : Body
  | invalid (excRepr : String) : Body
deriving DecidableEq, Repr

/-- The outcome of one `requests.get` round trip (one loop iteration's
transport behaviour): a response with a status code, an optional
`Retry-After` header and a body; or a raised `requests.exceptions.Timeout`;
or a raised `requests.exceptions.ConnectionError` (rendered as a string for
the terminal message); or any other unexpected exception raised during
request handling, rendered as a string. -/
inductive TransportResult where
  | response (status : Nat) (retryAfter : Option String) (body : Body) : TransportResult
  | timeout : TransportResult
  | connectionError (excRepr : String) : TransportResult
  | otherException (excRepr : String) : TransportResult
deriving DecidableEq, Repr

/-- The two error kinds raised by `get_hyperliquid_price`:
`RateLimitError` and `PriceCriticalError`, each carrying its message. -/
inductive FetchError where
  | rateLimit (msg : String) : FetchError
  | critical (msg : String) : FetchError
deriving DecidableEq, Repr

/-- The observable result of one fetch call: the returned price or the raised
error, together with the number of transport calls (`requests.get`
invocations) made and the list of sleep durations performed, in order. -/
structure FetchResult where
  outcome : Except FetchError PyFloat
  calls : Nat
  sleeps : List ℚ
deriving Repr

/-- `MAX_RETRIES = 3` from `src/price_client.py`. -/
def MAX_RETRIES : Nat := 3

/-- `BACKOFF_FACTOR = 0.5` from `src/price_client.py`. -/
def BACKOFF_FACTOR : ℚ := 1/2

/-- The sleep duration `BACKOFF_FACTOR * (2 ** attempt)` used before the
next attempt after a retryable failure at index `attempt`. -/
def backoff (attempt : Nat) : ℚ := BACKOFF_FACTOR * 2 ^ attempt

/-- The message of the `requests.HTTPError` raised by
`response.raise_for_status()` on a 4xx status (its exact text embeds the
reason phrase and URL, which are not load-bearing; only the status and the
fact that it is wrapped matter). -/
def httpErrorMessage (status : Nat) : String :=
  toString status ++ " Client Error for url"

/-- Message of the defensive terminal raise at line 99. -/
def exhaustedMessage : String :=
  "Exhausted all retries without definite failure."

/-- Message of the API-down `PriceCriticalError` at lines 31-33
(`f"API down: Failed after {MAX_RETRIES} attempts. Status: {...}"`). -/
def apiDownMessage (maxRetries status : Nat) : String :=
  "API down: Failed after " ++ toString maxRetries ++ " attempts. Status: "
    ++ toString status

/-- Message of the fail-fast `RateLimitError` at lines 45-47, when the
`Retry-After` header is present with value `v`. -/
def rateLimitSignalMessage (v : String) : String :=
  "Rate limit exceeded. Fail-fast chosen. Retry-After: " ++ v

/-- Message of the `RateLimitError` at line 50, when the `Retry-After`
header is absent. -/
def rateLimitNoHeaderMessage : String :=
  "Rate limit exceeded without Retry-After header."

/-- Message of the catch-all wrapping `PriceCriticalError` at line 96
(`f"Unexpected error during fetch: {e}"`). -/
def unexpectedMessage (cause : String) : String :=
  "Unexpected error during fetch: " ++ cause

/-- Message of the bad-data `PriceCriticalError` at line 60
(`f"Bad data: Price field is null or missing in response: {data}"`). -/
def badDataMessage (dataRepr : String) : String :=
  "Bad data: Price field is null or missing in response: " ++ dataRepr

/-- Python's rendering of a float in an f-string: finite values print as
decimals (kept abstract through the rational's rendering); `inf`, `-inf`
and `nan` print exactly so. -/
def PyFloat.render : PyFloat → String
  | .finite q => toString q
  | .inf => "inf"
  | .negInf => "-inf"
  | .nan => "nan"

/-- Whether a `PyFloat` is a finite value. -/
def PyFloat.isFinite : PyFloat → Bool
  | .finite _ => true
  | .inf => false
  | .negInf => false
  | .nan => false

/-- Python's `price <= 0` on a float (line 63): the usual order on finite
values; `-inf <= 0` is true, `inf <= 0` is false, and every comparison
with `nan` is false. -/
def PyFloat.nonpositive : PyFloat → Bool
  | .finite q => decide (q ≤ 0)
  | .inf => false
  | .negInf => true
  | .nan => false

/-- Python's `price > 0` on a float: true for positive finite values and
for `inf`; false for non-positive finite values, `-inf`, and `nan`. -/
def PyFloat.pos : PyFloat → Bool
  | .finite q => decide (0 < q)
  | .inf => true
  | .negInf => false
  | .nan => false

/-- Message of the non-positive-price `PriceCriticalError` at line 64
(`f"Bad data: Price is non-positive: {price}"`). -/
def nonPositiveMessage (price : PyFloat) : String :=
  "Bad data: Price is non-positive: " ++ price.render

/-- The message of the `OverflowError` raised by CPython's `float(n)` when
the int `n` is beyond binary64 range (line 62 may raise it; the
`except Exception` clause then wraps it). -/
def overflowMessage : String := "int too large to convert to float"

/-- Message of the timeout-exhaustion `PriceCriticalError` at lines 81-83. -/
def timeoutExhaustedMessage (maxRetries : Nat) : String :=
  "Connection Timeout: Failed after " ++ toString maxRetries ++ " attempts."

/-- Message of the network-exhaustion `PriceCriticalError` at lines 91-93
(`f"Network Error: Failed after {MAX_RETRIES} attempts. {e}"`). -/
def networkExhaustedMessage (maxRetries : Nat) (excRepr : String) : String :=
  "Network Error: Failed after " ++ toString maxRetries ++ " attempts. "
    ++ excRepr

/-- Line 59's numeric-type test
`not (price_value is None or not isinstance(price_value, (int, float)))`:
true exactly for booleans, ints and floats (`bool` is a subtype of
`int`). -/
def JsonPrice.isNumeric : JsonPrice → Bool
  | .missing => false
  | .null => false
  | .jbool _ => true
  | .jint _ => true
  | .jnum _ => true
  | .jother _ => false

/-- The smallest int magnitude on which `float(n)` raises `OverflowError`:
conversion rounds to the nearest binary64 (ties to even), whose largest
finite value is `2^1024 - 2^971`; every magnitude at or beyond the midpoint
`2^1024 - 2^970` rounds to `2^1024` and overflows (CPython raises exactly
from `float(2 ** 1024 - 2 ** 970)` upward). -/
def FLOAT_OVERFLOW_BOUND : Int := 2 ^ 1024 - 2 ^ 970

/-- The three ways lines 59-62 can leave the price-validation block. -/
inductive PriceRead where
  | badData : PriceRead
  | overflow : PriceRead
  | ok (x : PyFloat) : PriceRead
deriving DecidableEq, Repr

/-- Lines 59-62 of `src/price_client.py` applied to the decoded `price`
entry: `badData` when line 59's check fires (`None`, i.e. an absent key or
JSON null, or a non-numeric type); `overflow` when line 62's
`float(price_value)` raises `OverflowError` (an int at or beyond binary64
range, see `FLOAT_OVERFLOW_BOUND`), which the `except Exception` clause
then wraps; otherwise `ok` with the float produced by line 62: a bool
converts to 1.0 or 0.0, an in-range int converts to its value (carried
exactly; binary64 rounding is not modelled and affects neither sign nor
control flow), and a float — including a non-finite one — passes through
unchanged. -/
def JsonPrice.read : JsonPrice → PriceRead
  | .missing => .badData
  | .null => .badData
  | .jbool b => .ok (.finite (if b then 1 else 0))
  | .jint n =>
    if |n| < FLOAT_OVERFLOW_BOUND then .ok (.finite (n : ℚ)) else .overflow
  | .jnum x => .ok x
  | .jother _ => .badData

/-- The body of the `for attempt in range(MAX_RETRIES)` loop of
`get_hyperliquid_price`, lines 18-99 of `src/price_client.py`.
`remaining` is the number of loop iterations still available
(initially `maxRetries`, decremented once per iteration, so that
`attempt + remaining = maxRetries` throughout); when it reaches zero the
loop has completed without returning and the defensive
`"Exhausted all retries without definite failure."` error is raised.
Each iteration issues one transport call (`oracle attempt`) and:
* status `>= 500`: sleep `backoff attempt` and continue if
  `attempt < maxRetries - 1`, else raise `PriceCriticalError` (API down);
* status `== 429`: raise `RateLimitError`, never retried; line 38 tests
  `if retry_after:` — Python truthiness, which is false both when
  `headers.get` returned `None` (header absent) and when it returned the
  empty string (header present with an empty value), so only a present
  non-empty header takes the fail-fast-with-signal branch;
* `response.raise_for_status()`: any remaining status in `[400, 500)`
  raises `requests.HTTPError`, caught by the `except Exception` clause and
  wrapped into `PriceCriticalError("Unexpected error during fetch: ...")`;
* otherwise the body is decoded: a decode failure is likewise wrapped;
  a `"price"` entry that is `None` or not `int`/`float` raises the
  bad-data `PriceCriticalError` (line 59); an int beyond float range makes
  line 62's `float()` raise `OverflowError`, which the catch-all clause
  wraps; a converted float with `price <= 0` true (so not `nan` and not
  `inf`) raises the non-positive `PriceCriticalError`; any other converted
  float — including `inf` and `nan` — is returned;
* a transport `Timeout` or `ConnectionError` sleeps and continues if
  `attempt < maxRetries - 1`, else raises the corresponding terminal
  `PriceCriticalError`; any other exception from the transport is wrapped
  immediately with no retry. -/
def goFetch (maxRetries : Nat) (oracle : Nat → TransportResult) :
    Nat → Nat → Nat → List ℚ → FetchResult
  | _attempt, 0, calls, sleeps =>
    ⟨.error (.critical exhaustedMessage), calls, sleeps⟩
  | attempt, remaining + 1, calls, sleeps =>
    match oracle attempt with
    | .response status retryAfter body =>
      if 500 ≤ status then
        if attempt < maxRetries - 1 then
          goFetch maxRetries oracle (attempt + 1) remaining (calls + 1)
            (sleeps ++ [backoff attempt])
        else
          ⟨.error (.critical (apiDownMessage maxRetries status)), calls + 1,
            sleeps⟩
      else if status = 429 then
        match retryAfter with
        | some v =>
          if v = "" then
            ⟨.error (.rateLimit rateLimitNoHeaderMessage), calls + 1, sleeps⟩
          else
            ⟨.error (.rateLimit (rateLimitSignalMessage v)), calls + 1, sleeps⟩
        | none =>
          ⟨.error (.rateLimit rateLimitNoHeaderMessage), calls + 1, sleeps⟩
      else if 400 ≤ status then
        ⟨.error (.critical (unexpectedMessage (httpErrorMessage status))),
          calls + 1, sleeps⟩
      else
        match body with
        | .invalid excRepr =>
          ⟨.error (.critical (unexpectedMessage excRepr)), calls + 1, sleeps⟩
        | .json price dataRepr =>
          match price.read with
          | .badData =>
            ⟨.error (.critical (badDataMessage dataRepr)), calls + 1, sleeps⟩
          | .overflow =>
            ⟨.error (.critical (unexpectedMessage overflowMessage)),
              calls + 1, sleeps⟩
          | .ok p =>
            if p.nonpositive then
              ⟨.error (.critical (nonPositiveMessage p)), calls + 1, sleeps⟩
            else
              ⟨.ok p, calls + 1, sleeps⟩
    | .timeout =>
      if attempt < maxRetries - 1 then
        goFetch maxRetries oracle (attempt + 1) remaining (calls + 1)
          (sleeps ++ [backoff attempt])
      else
        ⟨.error (.critical (timeoutExhaustedMessage maxRetries)), calls + 1,
          sleeps⟩
    | .connectionError excRepr =>
      if attempt < maxRetries - 1 then
        goFetch maxRetries oracle (attempt + 1) remaining (calls + 1)
          (sleeps ++ [backoff attempt])
      else
        ⟨.error (.critical (networkExhaustedMessage maxRetries excRepr)),
          calls + 1, sleeps⟩
    | .otherException excRepr =>
      ⟨.error (.critical (unexpectedMessage excRepr)), calls + 1, sleeps⟩

/-- The fetch loop started at attempt 0 with a full attempt budget,
parameterised by the retry bound (the source fixes it to `MAX_RETRIES`). -/
def fetchWith (maxRetries : Nat) (oracle : Nat → TransportResult) : FetchResult :=
  goFetch maxRetries oracle 0 maxRetries 0 []

/-- `url = f"https://api.hyperliquid.com/price/{symbol}"` from line 16. -/
def priceUrl (symbol : String) : String :=
  "https://api.hyperliquid.com/price/" ++ symbol

/-- `get_hyperliquid_price(symbol)`: drives up to `MAX_RETRIES` attempts
against the transport for the symbol's URL.  The transport is an oracle from
(URL, attempt index) to that round trip's outcome. -/
def get_hyperliquid_price (symbol : String)
    (transport : String → Nat → TransportResult) : FetchResult :=
  fetchWith MAX_RETRIES (transport (priceUrl symbol))

/-- A retryable failure in the sense of the spec's glossary: a transport
timeout, a connection fault, or a response with a 5xx status.  These are
exactly the outcomes on which `get_hyperliquid_price` sleeps and continues
when attempts remain. -/
def retryable (t : TransportResult) : Prop :=
  t = .timeout ∨ (∃ e, t = .connectionError e) ∨
    (∃ s ra b, t = .response s ra b ∧ 500 ≤ s)

/-- An outcome produced by an explicit return or raise of the loop body:
a returned price, a `RateLimitError`, or a `PriceCriticalError` other than
the defensive terminal `"Exhausted all retries without definite failure."`
one. -/
def definiteOutcome (o : Except FetchError PyFloat) : Prop :=
  (∃ p, o = .ok p) ∨ (∃ m, o = .error (.rateLimit m)) ∨
    (∃ m, o = .error (.critical m) ∧ m ≠ exhaustedMessage)

/-- The exception classes declared in `src/exceptions.py`, together with the
Python builtin root `Exception`.  `PriceCriticalError`, although imported by
`src/price_client.py`, has no declaration in `src/exceptions.py` (nor
anywhere else in the source), so it is not among these constructors. -/
inductive ExcClass where
  | Exception : ExcClass
  | PriceClientException : ExcClass
  | TransientError : ExcClass
  | PermanentError : ExcClass
  | NetworkError : ExcClass
  | RateLimitError : ExcClass
  | AuthenticationError : ExcClass
  | NotFoundError : ExcClass
  | ValidationError : ExcClass
deriving DecidableEq, Repr

/-- The direct superclass (single base class) of each class, exactly as
declared in `src/exceptions.py`; the builtin root `Exception` has none
within the model. -/
def ExcClass.parent : ExcClass → Option ExcClass
  | .Exception => none
  | .PriceClientException => some .Exception
  | .TransientError => some .PriceClientException
  | .PermanentError => some .PriceClientException
  | .NetworkError => some .TransientError
  | .RateLimitError => some .TransientError
  | .AuthenticationError => some .PermanentError
  | .NotFoundError => some .PermanentError
  | .ValidationError => some .PermanentError

/-- The names of the classes declared in `src/exceptions.py`, in order. -/
def exceptionsDeclaredClasses : List String :=
  ["PriceClientException", "TransientError", "PermanentError",
    "NetworkError", "RateLimitError", "AuthenticationError",
    "NotFoundError", "ValidationError"]

/-- The flat-taxonomy shape asserted by the spec, applied to the raised
error kind that `src/exceptions.py` does declare: `RateLimitError` would
have to be a direct subclass of the common fetch-error root
`PriceClientException`. -/
def rateLimitDirectlyUnderRoot : Prop :=
  ExcClass.parent .RateLimitError = some .PriceClientException


example :
    get_hyperliquid_price "BTC"
      (fun _ _ => .response 200 none (.json (.jnum (.finite 100)) "price: 100")) =
    ⟨.ok (.finite 100), 1, []⟩ := by rfl

example :
    get_hyperliquid_price "BTC" (fun _ _ => .timeout) =
    ⟨.error (.critical "Connection Timeout: Failed after 3 attempts."), 3,
      [1/2, 1]⟩ := by
  norm_num [get_hyperliquid_price, fetchWith, goFetch, MAX_RETRIES, backoff,
    BACKOFF_FACTOR]
  rfl

lemma goFetch_retry_step (mr : Nat) (oracle : Nat → TransportResult)
    (attempt remaining calls : Nat) (sleeps : List ℚ)
    (hr : retryable (oracle attempt)) (hg : attempt < mr - 1) :
    goFetch mr oracle attempt (remaining + 1) calls sleeps =
    goFetch mr oracle (attempt + 1) remaining (calls + 1)
      (sleeps ++ [backoff attempt]) := by
  rcases hr with h | ⟨e, h⟩ | ⟨s, ra, b, h, hs⟩
  · simp [goFetch, h, hg]
  · simp [goFetch, h, hg]
  · simp [goFetch, h, hg, hs]

lemma goFetch_skip (mr : Nat) (oracle : Nat → TransportResult) (k : Nat) :
    ∀ (attempt calls : Nat) (sleeps : List ℚ),
      attempt + k < mr →
      (∀ i, i < k → retryable (oracle (attempt + i))) →
      goFetch mr oracle attempt (mr - attempt) calls sleeps =
      goFetch mr oracle (attempt + k) (mr - (attempt + k)) (calls + k)
        (sleeps ++ (List.range k).map (fun i => backoff (attempt + i))) := by
  induction k with
  | zero => intro attempt calls sleeps _ _; simp
  | succ k ih =>
    intro attempt calls sleeps hlt hr
    have h1 : mr - attempt = (mr - (attempt + 1)) + 1 := by omega
    have hg : attempt < mr - 1 := by omega
    have hr0 : retryable (oracle attempt) := by simpa using hr 0 (by omega)
    rw [h1, goFetch_retry_step mr oracle attempt _ calls sleeps hr0 hg]
    have hfun : (fun i => backoff (attempt + 1 + i)) =
        (fun i => backoff (attempt + (i + 1))) := by
      funext i; congr 1; omega
    have hlist : (sleeps ++ [backoff attempt]) ++
        (List.range k).map (fun i => backoff (attempt + 1 + i)) =
        sleeps ++ (List.range (k + 1)).map (fun i => backoff (attempt + i)) := by
      rw [List.append_assoc, List.range_succ_eq_map, hfun]
      simp [List.map_map, Function.comp]
    have h2 := ih (attempt + 1) (calls + 1) (sleeps ++ [backoff attempt])
      (by omega) (fun i hi => by
        have := hr (i + 1) (by omega)
        have hx : attempt + (i + 1) = attempt + 1 + i := by omega
        rwa [hx] at this)
    rw [h2, hlist]
    have ha : attempt + 1 + k = attempt + (k + 1) := by omega
    have hc : calls + 1 + k = calls + (k + 1) := by omega
    rw [ha, hc]

lemma data_head_append (a b : String) (c : Char) (h : a.data.head? = some c) :
    (a ++ b).data.head? = some c := by
  rw [String.data_append]
  cases ha : a.data with
  | nil => simp [ha] at h
  | cons x xs => rw [ha] at h; simpa [ha] using h

lemma ne_of_head_ne (a b : String) (ca cb : Char)
    (hca : a.data.head? = some ca) (hcb : b.data.head? = some cb)
    (hne : ca ≠ cb) : a ≠ b := by
  intro h
  rw [h, hcb] at hca
  exact hne (Option.some.inj hca).symm

lemma apiDownMessage_ne (mr s : Nat) : apiDownMessage mr s ≠ exhaustedMessage := by
  refine ne_of_head_ne _ _ 'A' 'E' ?_ rfl (by decide)
  unfold apiDownMessage
  apply data_head_append
  apply data_head_append
  apply data_head_append
  rfl

lemma unexpectedMessage_ne (cause : String) :
    unexpectedMessage cause ≠ exhaustedMessage := by
  refine ne_of_head_ne _ _ 'U' 'E' ?_ rfl (by decide)
  unfold unexpectedMessage
  apply data_head_append
  rfl

lemma badDataMessage_ne (dataRepr : String) :
    badDataMessage dataRepr ≠ exhaustedMessage := by
  refine ne_of_head_ne _ _ 'B' 'E' ?_ rfl (by decide)
  unfold badDataMessage
  apply data_head_append
  rfl

lemma nonPositiveMessage_ne (p : PyFloat) :
    nonPositiveMessage p ≠ exhaustedMessage := by
  refine ne_of_head_ne _ _ 'B' 'E' ?_ rfl (by decide)
  unfold nonPositiveMessage
  apply data_head_append
  rfl

lemma timeoutExhaustedMessage_ne (mr : Nat) :
    timeoutExhaustedMessage mr ≠ exhaustedMessage := by
  refine ne_of_head_ne _ _ 'C' 'E' ?_ rfl (by decide)
  unfold timeoutExhaustedMessage
  apply data_head_append
  apply data_head_append
  rfl

lemma networkExhaustedMessage_ne (mr : Nat) (e : String) :
    networkExhaustedMessage mr e ≠ exhaustedMessage := by
  refine ne_of_head_ne _ _ 'N' 'E' ?_ rfl (by decide)
  unfold networkExhaustedMessage
  apply data_head_append
  apply data_head_append
  apply data_head_append
  rfl

lemma goFetch_calls_le (mr : Nat) (oracle : Nat → TransportResult) :
    ∀ (remaining attempt calls : Nat) (sleeps : List ℚ),
      (goFetch mr oracle attempt remaining calls sleeps).calls ≤
        calls + remaining := by
  intro remaining
  induction remaining with
  | zero => intro attempt calls sleeps; simp [goFetch]
  | succ n ih =>
    intro attempt calls sleeps
    simp only [goFetch]
    cases ho : oracle attempt with
    | response status ra body =>
      by_cases h5 : 500 ≤ status
      · simp only [if_pos h5]
        by_cases hg : attempt < mr - 1
        · simp only [if_pos hg]
          exact le_trans (ih (attempt + 1) (calls + 1) _) (by omega)
        · simp only [if_neg hg]; omega
      · simp only [if_neg h5]
        by_cases h9 : status = 429
        · simp only [if_pos h9]
          cases ra with
          | none => simp
          | some v => by_cases hv : v = "" <;> simp [hv]
        · simp only [if_neg h9]
          by_cases h4 : 400 ≤ status
          · simp only [if_pos h4]; omega
          · simp only [if_neg h4]
            cases body with
            | invalid e => dsimp only; omega
            | json price dataRepr =>
              dsimp only
              cases hp : price.read with
              | badData => dsimp only; omega
              | overflow => dsimp only; omega
              | ok p =>
                dsimp only
                by_cases hle : p.nonpositive = true
                · simp only [if_pos hle]; omega
                · simp only [if_neg hle]; omega
    | timeout =>
      by_cases hg : attempt < mr - 1
      · simp only [if_pos hg]
        exact le_trans (ih (attempt + 1) (calls + 1) _) (by omega)
      · simp only [if_neg hg]; omega
    | connectionError e =>
      by_cases hg : attempt < mr - 1
      · simp only [if_pos hg]
        exact le_trans (ih (attempt + 1) (calls + 1) _) (by omega)
      · simp only [if_neg hg]; omega
    | otherException e => dsimp only; omega

lemma goFetch_definite (mr : Nat) (oracle : Nat → TransportResult) :
    ∀ (remaining attempt calls : Nat) (sleeps : List ℚ),
      0 < remaining → attempt + remaining = mr →
      definiteOutcome
        (goFetch mr oracle attempt remaining calls sleeps).outcome := by
  intro remaining
  induction remaining with
  | zero => intro _ _ _ h; omega
  | succ n ih =>
    intro attempt calls sleeps _ hsum
    simp only [goFetch]
    cases ho : oracle attempt with
    | response status ra body =>
      by_cases h5 : 500 ≤ status
      · simp only [if_pos h5]
        by_cases hg : attempt < mr - 1
        · simp only [if_pos hg]
          exact ih (attempt + 1) (calls + 1) _ (by omega) (by omega)
        · simp only [if_neg hg]
          exact .inr (.inr ⟨_, rfl, apiDownMessage_ne mr status⟩)
      · simp only [if_neg h5]
        by_cases h9 : status = 429
        · simp only [if_pos h9]
          cases ra with
          | some v =>
            dsimp only
            by_cases hv : v = ""
            · simp only [if_pos hv]
              exact .inr (.inl ⟨_, rfl⟩)
            · simp only [if_neg hv]
              exact .inr (.inl ⟨_, rfl⟩)
          | none => exact .inr (.inl ⟨_, rfl⟩)
        · simp only [if_neg h9]
          by_cases h4 : 400 ≤ status
          · simp only [if_pos h4]
            exact .inr (.inr ⟨_, rfl, unexpectedMessage_ne _⟩)
          · simp only [if_neg h4]
            cases body with
            | invalid e =>
              exact .inr (.inr ⟨_, rfl, unexpectedMessage_ne _⟩)
            | json price dataRepr =>
              dsimp only
              cases hp : price.read with
              | badData => exact .inr (.inr ⟨_, rfl, badDataMessage_ne _⟩)
              | overflow => exact .inr (.inr ⟨_, rfl, unexpectedMessage_ne _⟩)
              | ok p =>
                dsimp only
                by_cases hle : p.nonpositive = true
                · simp only [if_pos hle]
                  exact .inr (.inr ⟨_, rfl, nonPositiveMessage_ne _⟩)
                · simp only [if_neg hle]
                  exact .inl ⟨p, rfl⟩
    | timeout =>
      by_cases hg : attempt < mr - 1
      · simp only [if_pos hg]
        exact ih (attempt + 1) (calls + 1) _ (by omega) (by omega)
      · simp only [if_neg hg]
        exact .inr (.inr ⟨_, rfl, timeoutExhaustedMessage_ne mr⟩)
    | connectionError e =>
      by_cases hg : attempt < mr - 1
      · simp only [if_pos hg]
        exact ih (attempt + 1) (calls + 1) _ (by omega) (by omega)
      · simp only [if_neg hg]
        exact .inr (.inr ⟨_, rfl, networkExhaustedMessage_ne mr e⟩)
    | otherException e => exact .inr (.inr ⟨_, rfl, unexpectedMessage_ne _⟩)

lemma fetchWith_skip (mr : Nat) (oracle : Nat → TransportResult) (k : Nat)
    (hk : k < mr) (hlead : ∀ i, i < k → retryable (oracle i)) :
    fetchWith mr oracle =
      goFetch mr oracle k (mr - k) k ((List.range k).map backoff) := by
  unfold fetchWith
  have h := goFetch_skip mr oracle k 0 0 [] (by omega) (by simpa using hlead)
  simpa using h

lemma goFetch_success_step (mr : Nat) (oracle : Nat → TransportResult)
    (attempt remaining calls : Nat) (sleeps : List ℚ) (status : Nat)
    (ra : Option String) (price : JsonPrice) (dataRepr : String)
    (p : PyFloat)
    (ho : oracle attempt = .response status ra (.json price dataRepr))
    (hs : status < 400) (hnum : price.read = .ok p)
    (hpos : p.nonpositive = false) :
    goFetch mr oracle attempt (remaining + 1) calls sleeps =
      ⟨.ok p, calls + 1, sleeps⟩ := by
  have h5 : ¬ 500 ≤ status := by omega
  have h9 : ¬ status = 429 := by omega
  have h4 : ¬ 400 ≤ status := by omega
  simp [goFetch, ho, h5, h9, h4, hnum, hpos]

lemma goFetch_429_step (mr : Nat) (oracle : Nat → TransportResult)
    (attempt remaining calls : Nat) (sleeps : List ℚ)
    (ra : Option String) (body : Body)
    (ho : oracle attempt = .response 429 ra body) :
    goFetch mr oracle attempt (remaining + 1) calls sleeps =
      ⟨.error (.rateLimit (match ra with
          | some v =>
            if v = "" then rateLimitNoHeaderMessage
            else rateLimitSignalMessage v
          | none => rateLimitNoHeaderMessage)), calls + 1, sleeps⟩ := by
  cases ra with
  | none => simp [goFetch, ho]
  | some v =>
    by_cases hv : v = "" <;> simp [goFetch, ho, hv]

lemma goFetch_5xx_last (mr : Nat) (oracle : Nat → TransportResult)
    (attempt remaining calls : Nat) (sleeps : List ℚ) (status : Nat)
    (ra : Option String) (body : Body)
    (ho : oracle attempt = .response status ra body) (hs : 500 ≤ status)
    (hg : ¬ attempt < mr - 1) :
    goFetch mr oracle attempt (remaining + 1) calls sleeps =
      ⟨.error (.critical (apiDownMessage mr status)), calls + 1, sleeps⟩ := by
  simp [goFetch, ho, hs, hg]

lemma goFetch_4xx_step (mr : Nat) (oracle : Nat → TransportResult)
    (attempt remaining calls : Nat) (sleeps : List ℚ) (status : Nat)
    (ra : Option String) (body : Body)
    (ho : oracle attempt = .response status ra body)
    (h4 : 400 ≤ status) (h5 : status < 500) (h9 : status ≠ 429) :
    goFetch mr oracle attempt (remaining + 1) calls sleeps =
      ⟨.error (.critical (unexpectedMessage (httpErrorMessage status))),
        calls + 1, sleeps⟩ := by
  have h5n : ¬ 500 ≤ status := by omega
  simp [goFetch, ho, h5n, h9, h4]

lemma goFetch_invalid_step (mr : Nat) (oracle : Nat → TransportResult)
    (attempt remaining calls : Nat) (sleeps : List ℚ) (status : Nat)
    (ra : Option String) (excRepr : String)
    (ho : oracle attempt = .response status ra (.invalid excRepr))
    (hs : status < 400) :
    goFetch mr oracle attempt (remaining + 1) calls sleeps =
      ⟨.error (.critical (unexpectedMessage excRepr)), calls + 1, sleeps⟩ := by
  have h5 : ¬ 500 ≤ status := by omega
  have h9 : ¬ status = 429 := by omega
  have h4 : ¬ 400 ≤ status := by omega
  simp [goFetch, ho, h5, h9, h4]

lemma goFetch_badData_step (mr : Nat) (oracle : Nat → TransportResult)
    (attempt remaining calls : Nat) (sleeps : List ℚ) (status : Nat)
    (ra : Option String) (price : JsonPrice) (dataRepr : String)
    (ho : oracle attempt = .response status ra (.json price dataRepr))
    (hs : status < 400) (hnum : price.read = .badData) :
    goFetch mr oracle attempt (remaining + 1) calls sleeps =
      ⟨.error (.critical (badDataMessage dataRepr)), calls + 1, sleeps⟩ := by
  have h5 : ¬ 500 ≤ status := by omega
  have h9 : ¬ status = 429 := by omega
  have h4 : ¬ 400 ≤ status := by omega
  simp [goFetch, ho, h5, h9, h4, hnum]

lemma goFetch_nonPositive_step (mr : Nat) (oracle : Nat → TransportResult)
    (attempt remaining calls : Nat) (sleeps : List ℚ) (status : Nat)
    (ra : Option String) (price : JsonPrice) (dataRepr : String)
    (p : PyFloat)
    (ho : oracle attempt = .response status ra (.json price dataRepr))
    (hs : status < 400) (hnum : price.read = .ok p)
    (hle : p.nonpositive = true) :
    goFetch mr oracle attempt (remaining + 1) calls sleeps =
      ⟨.error (.critical (nonPositiveMessage p)), calls + 1, sleeps⟩ := by
  have h5 : ¬ 500 ≤ status := by omega
  have h9 : ¬ status = 429 := by omega
  have h4 : ¬ 400 ≤ status := by omega
  simp [goFetch, ho, h5, h9, h4, hnum, hle]

lemma goFetch_overflow_step (mr : Nat) (oracle : Nat → TransportResult)
    (attempt remaining calls : Nat) (sleeps : List ℚ) (status : Nat)
    (ra : Option String) (price : JsonPrice) (dataRepr : String)
    (ho : oracle attempt = .response status ra (.json price dataRepr))
    (hs : status < 400) (hnum : price.read = .overflow) :
    goFetch mr oracle attempt (remaining + 1) calls sleeps =
      ⟨.error (.critical (unexpectedMessage overflowMessage)), calls + 1,
        sleeps⟩ := by
  have h5 : ¬ 500 ≤ status := by omega
  have h9 : ¬ status = 429 := by omega
  have h4 : ¬ 400 ≤ status := by omega
  simp [goFetch, ho, h5, h9, h4, hnum]

lemma goFetch_otherExc_step (mr : Nat) (oracle : Nat → TransportResult)
    (attempt remaining calls : Nat) (sleeps : List ℚ) (excRepr : String)
    (ho : oracle attempt = .otherException excRepr) :
    goFetch mr oracle attempt (remaining + 1) calls sleeps =
      ⟨.error (.critical (unexpectedMessage excRepr)), calls + 1, sleeps⟩ := by
  simp [goFetch, ho]

lemma goFetch_timeout_last (mr : Nat) (oracle : Nat → TransportResult)
    (attempt remaining calls : Nat) (sleeps : List ℚ)
    (ho : oracle attempt = .timeout) (hg : ¬ attempt < mr - 1) :
    goFetch mr oracle attempt (remaining + 1) calls sleeps =
      ⟨.error (.critical (timeoutExhaustedMessage mr)), calls + 1, sleeps⟩ := by
  simp [goFetch, ho, hg]

lemma goFetch_connErr_last (mr : Nat) (oracle : Nat → TransportResult)
    (attempt remaining calls : Nat) (sleeps : List ℚ) (excRepr : String)
    (ho : oracle attempt = .connectionError excRepr) (hg : ¬ attempt < mr - 1) :
    goFetch mr oracle attempt (remaining + 1) calls sleeps =
      ⟨.error (.critical (networkExhaustedMessage mr excRepr)), calls + 1,
        sleeps⟩ := by
  simp [goFetch, ho, hg]

lemma goFetch_ok_not_nonpositive (mr : Nat) (oracle : Nat → TransportResult) :
    ∀ (remaining attempt calls : Nat) (sleeps : List ℚ) (x : PyFloat),
      (goFetch mr oracle attempt remaining calls sleeps).outcome = .ok x →
      x.nonpositive = false := by
  intro remaining
  induction remaining with
  | zero => intro attempt calls sleeps p h; simp [goFetch] at h
  | succ n ih =>
    intro attempt calls sleeps p
    simp only [goFetch]
    cases ho : oracle attempt with
    | response status ra body =>
      by_cases h5 : 500 ≤ status
      · simp only [if_pos h5]
        by_cases hg : attempt < mr - 1
        · simp only [if_pos hg]
          exact ih (attempt + 1) (calls + 1) _ p
        · simp only [if_neg hg]
          intro h; simp at h
      · simp only [if_neg h5]
        by_cases h9 : status = 429
        · simp only [if_pos h9]
          cases ra with
          | none => intro h; simp at h
          | some v =>
            dsimp only
            by_cases hv : v = "" <;> simp only [if_pos, if_neg, hv] <;>
              intro h <;> simp at h
        · simp only [if_neg h9]
          by_cases h4 : 400 ≤ status
          · simp only [if_pos h4]
            intro h; simp at h
          · simp only [if_neg h4]
            cases body with
            | invalid e => intro h; simp at h
            | json price dataRepr =>
              dsimp only
              cases hp : price.read with
              | badData => intro h; simp at h
              | overflow => intro h; simp at h
              | ok q =>
                dsimp only
                by_cases hle : q.nonpositive = true
                · simp only [if_pos hle]
                  intro h; simp at h
                · simp only [if_neg hle]
                  intro h
                  simp only [Except.ok.injEq] at h
                  rw [← h]
                  simpa using hle
    | timeout =>
      by_cases hg : attempt < mr - 1
      · simp only [if_pos hg]
        exact ih (attempt + 1) (calls + 1) _ p
      · simp only [if_neg hg]
        intro h; simp at h
    | connectionError e =>
      by_cases hg : attempt < mr - 1
      · simp only [if_pos hg]
        exact ih (attempt + 1) (calls + 1) _ p
      · simp only [if_neg hg]
        intro h; simp at h
    | otherException e => intro h; simp at h

lemma unexpectedMessage_ne_badData (c d : String) :
    unexpectedMessage c ≠ badDataMessage d := by
  refine ne_of_head_ne _ _ 'U' 'B' ?_ ?_ (by decide)
  · unfold unexpectedMessage
    apply data_head_append
    rfl
  · unfold badDataMessage
    apply data_head_append
    rfl

lemma unexpectedMessage_ne_nonPositive (c : String) (x : PyFloat) :
    unexpectedMessage c ≠ nonPositiveMessage x := by
  refine ne_of_head_ne _ _ 'U' 'B' ?_ ?_ (by decide)
  · unfold unexpectedMessage
    apply data_head_append
    rfl
  · unfold nonPositiveMessage
    apply data_head_append
    rfl

lemma PyFloat.not_nonpositive_of_pos :
    ∀ x : PyFloat, x.pos = true → x.nonpositive = false
  | .finite q, h => by
    simp only [PyFloat.pos, decide_eq_true_eq] at h
    simp only [PyFloat.nonpositive, decide_eq_false_iff_not]
    exact not_le.mpr h
  | .inf, _ => rfl
  | .negInf, h => by simp [PyFloat.pos] at h
  | .nan, h => by simp [PyFloat.pos] at h

set_option exponentiation.threshold 1100 in
/-- C9 counterexample: the claim as stated fails for an integer price
beyond binary64 range.  A first-attempt 200 response whose `price` field
is the numeric value `10 ^ 309 > 0` does not make fetch return that
price: line 62's `float()` raises `OverflowError`, and the code raises
the wrapped `PriceCriticalError` instead. -/
theorem c9_counterexample :
    (JsonPrice.jint (10 ^ 309)).isNumeric = true ∧ (0 : Int) < 10 ^ 309 ∧
    get_hyperliquid_price "AAPL"
      (fun _ _ =>
        .response 200 none (.json (.jint (10 ^ 309)) "price: 1e309")) =
      ⟨.error (.critical (unexpectedMessage overflowMessage)), 1, []⟩ := by
  refine ⟨rfl, by positivity, ?_⟩
  have hov : ¬ |(10 ^ 309 : Int)| < FLOAT_OVERFLOW_BOUND := by
    unfold FLOAT_OVERFLOW_BOUND
    rw [abs_of_nonneg (show (0 : Int) ≤ 10 ^ 309 by positivity)]
    norm_num
  have hread : (JsonPrice.jint (10 ^ 309)).read = .overflow := by
    simp only [JsonPrice.read]
    rw [if_neg hov]
  unfold get_hyperliquid_price fetchWith
  exact goFetch_overflow_step MAX_RETRIES _ 0 2 0 [] 200 none
    (.jint (10 ^ 309)) "price: 1e309" rfl (by omega) hread

/-- C9 amended: for every symbol, a fetch whose first attempt receives a
200-status response with a numeric `price` field that is `> 0` and on
which line 62's `float()` does not overflow (any float value, or an int
within binary64 range) returns that price and makes exactly 1 transport
call, with no sleep and no further attempts. -/
theorem c9_first_attempt_success (symbol : String)
    (transport : String → Nat → TransportResult)
    (ra : Option String) (price : JsonPrice) (dataRepr : String)
    (p : PyFloat)
    (h0 : transport (priceUrl symbol) 0 =
      .response 200 ra (.json price dataRepr))
    (hnum : price.read = .ok p) (hpos : p.pos = true) :
    get_hyperliquid_price symbol transport = ⟨.ok p, 1, []⟩ := by
  unfold get_hyperliquid_price fetchWith
  exact goFetch_success_step MAX_RETRIES _ 0 2 0 [] 200 ra price dataRepr p
    h0 (by omega) hnum (PyFloat.not_nonpositive_of_pos p hpos)

/-- Witness for C9 at a concrete input: a first-attempt 200 response with
price 175.5 yields 175.5 after one call. -/
theorem c9_witness :
    get_hyperliquid_price "AAPL"
      (fun _ _ =>
        .response 200 none (.json (.jnum (.finite (351/2))) "price: 175.5")) =
      ⟨.ok (.finite (351/2)), 1, []⟩ :=
  c9_first_attempt_success "AAPL" _ none (.jnum (.finite (351/2)))
    "price: 175.5" (.finite (351/2)) rfl rfl (by norm_num [PyFloat.pos])

/-- C10: a success-status response whose `price` field is the JSON boolean
`true` makes fetch return 1.0 as a successful price after exactly 1
transport call (no bad-data error), because Python's `isinstance` check
counts `bool` as numeric (`bool` is a subtype of `int`) and
`float(True) = 1.0 > 0`. -/
theorem c10_bool_true_price (symbol : String)
    (transport : String → Nat → TransportResult)
    (ra : Option String) (dataRepr : String)
    (h0 : transport (priceUrl symbol) 0 =
      .response 200 ra (.json (.jbool true) dataRepr)) :
    get_hyperliquid_price symbol transport = ⟨.ok (.finite 1), 1, []⟩ := by
  unfold get_hyperliquid_price fetchWith
  exact goFetch_success_step MAX_RETRIES _ 0 2 0 [] 200 ra (.jbool true)
    dataRepr (.finite 1) h0 (by omega) rfl
    (by norm_num [PyFloat.nonpositive])

/-- Witness for C10 at a concrete input: a 200 response whose price field is
the boolean `true` returns price 1 after one call. -/
theorem c10_witness :
    get_hyperliquid_price "BTC"
      (fun _ _ => .response 200 none (.json (.jbool true) "price: True")) =
      ⟨.ok (.finite 1), 1, []⟩ :=
  c10_bool_true_price "BTC" _ none "price: True" rfl

set_option exponentiation.threshold 1100 in
/-- C6 counterexample: the claim as stated fails for a numeric price that
is `≤ 0` but beyond binary64 range.  At `price = -(10 ^ 400)` the claim
asserts the bad-data `PriceCriticalError` citing the non-positive value,
but line 62's `float()` raises `OverflowError` first and the code raises
the wrapped `PriceCriticalError`, whose message cites neither the payload
nor the value. -/
theorem c6_counterexample :
    (JsonPrice.jint (-(10 ^ 400))).isNumeric = true ∧
    (-(10 ^ 400) : Int) ≤ 0 ∧
    get_hyperliquid_price "ETH"
      (fun _ _ =>
        .response 200 none
          (.json (.jint (-(10 ^ 400))) "price: big negative")) =
      ⟨.error (.critical (unexpectedMessage overflowMessage)), 1, []⟩ ∧
    unexpectedMessage overflowMessage ≠
      badDataMessage "price: big negative" ∧
    unexpectedMessage overflowMessage ≠
      nonPositiveMessage (.finite (-(10 ^ 400))) := by
  refine ⟨rfl, neg_nonpos.mpr (by positivity), ?_,
    unexpectedMessage_ne_badData _ _, unexpectedMessage_ne_nonPositive _ _⟩
  have hov : ¬ |(-(10 ^ 400) : Int)| < FLOAT_OVERFLOW_BOUND := by
    unfold FLOAT_OVERFLOW_BOUND
    rw [abs_neg, abs_of_nonneg (show (0 : Int) ≤ 10 ^ 400 by positivity)]
    norm_num
  have hread : (JsonPrice.jint (-(10 ^ 400))).read = .overflow := by
    simp only [JsonPrice.read]
    rw [if_neg hov]
  unfold get_hyperliquid_price fetchWith
  exact goFetch_overflow_step MAX_RETRIES _ 0 2 0 [] 200 none
    (.jint (-(10 ^ 400))) "price: big negative" rfl (by omega) hread

/-- C6 amended: a 200 response whose `price` field is absent, null or
non-numeric makes fetch raise the bad-data `PriceCriticalError` citing the
payload after exactly 1 transport call, with no retry and no sleep; one
whose field is numeric, converts with `float()` without overflow, and is
`<= 0` in Python's float ordering raises the non-positive
`PriceCriticalError` citing the value, likewise after exactly 1 call; an
integer field at or beyond binary64 range instead makes `float()` raise
`OverflowError` and fetch raises the wrapped `PriceCriticalError`, still
after exactly 1 call with no retry and no sleep. -/
theorem c6_bad_data_no_retry (symbol : String)
    (transport : String → Nat → TransportResult)
    (ra : Option String) (price : JsonPrice) (dataRepr : String)
    (h0 : transport (priceUrl symbol) 0 =
      .response 200 ra (.json price dataRepr)) :
    (price.read = .badData →
      get_hyperliquid_price symbol transport =
        ⟨.error (.critical (badDataMessage dataRepr)), 1, []⟩) ∧
    (∀ x, price.read = .ok x → x.nonpositive = true →
      get_hyperliquid_price symbol transport =
        ⟨.error (.critical (nonPositiveMessage x)), 1, []⟩) ∧
    (price.read = .overflow →
      get_hyperliquid_price symbol transport =
        ⟨.error (.critical (unexpectedMessage overflowMessage)), 1, []⟩) := by
  refine ⟨?_, ?_, ?_⟩
  · intro hbad
    unfold get_hyperliquid_price fetchWith
    exact goFetch_badData_step MAX_RETRIES _ 0 2 0 [] 200 ra price dataRepr
      h0 (by omega) hbad
  · intro x hok hle
    unfold get_hyperliquid_price fetchWith
    exact goFetch_nonPositive_step MAX_RETRIES _ 0 2 0 [] 200 ra price
      dataRepr x h0 (by omega) hok hle
  · intro hovf
    unfold get_hyperliquid_price fetchWith
    exact goFetch_overflow_step MAX_RETRIES _ 0 2 0 [] 200 ra price dataRepr
      h0 (by omega) hovf

/-- Witness for C6 at a concrete input: a 200 response with a null price
raises the bad-data `PriceCriticalError` after one call and no sleep. -/
theorem c6_witness :
    get_hyperliquid_price "ETH"
      (fun _ _ => .response 200 none (.json .null "price: None")) =
      ⟨.error (.critical (badDataMessage "price: None")), 1, []⟩ :=
  (c6_bad_data_no_retry "ETH" _ none .null "price: None" rfl).1 rfl

/-- C5 counterexample: the claim's finiteness half is false of the program.
The valid JSON body whose `price` is the real literal `1e400` decodes in
Python to the float `inf`; `inf <= 0` is false, so fetch returns the
non-finite value `inf` as a successful price. -/
theorem c5_counterexample :
    get_hyperliquid_price "XRP"
      (fun _ _ => .response 200 none (.json (.jnum .inf) "price: 1e400")) =
      ⟨.ok .inf, 1, []⟩ ∧
    PyFloat.inf.isFinite = false := by
  exact ⟨by rfl, rfl⟩

/-- C5 amended: whenever fetch returns successfully, the returned price
passes the code's only guard — `price <= 0` is false in Python's float
ordering — so a finite returned price is strictly positive and `-inf` is
never returned; the code has no finiteness check, however, and `inf`
(from a valid out-of-range literal such as `1e400`) or `nan` can be
returned as a price. -/
theorem c5_success_price_positive (symbol : String)
    (transport : String → Nat → TransportResult) (x : PyFloat)
    (h : (get_hyperliquid_price symbol transport).outcome = .ok x) :
    x.nonpositive = false :=
  goFetch_ok_not_nonpositive MAX_RETRIES (transport (priceUrl symbol))
    MAX_RETRIES 0 0 [] x h

/-- Witness for C5 at a concrete input: a fetch that returns the finite
price 100 passes the non-positivity guard, by the theorem. -/
theorem c5_witness :
    (PyFloat.finite 100).nonpositive = false :=
  c5_success_price_positive "AAPL"
    (fun _ _ =>
      .response 200 none (.json (.jnum (.finite 100)) "price: 100"))
    (.finite 100) (by rfl)

/-- C1 counterexample: the claim as stated fails when the `Retry-After`
header is carried with an empty value.  Line 38 of the source tests
`if retry_after:` — Python truthiness — so a 429 response whose
`Retry-After` header is present but empty produces the
missing-header message, which is not the fail-fast message that would
include the (empty) header value and the fail-fast wording. -/
theorem c1_counterexample :
    fetchWith MAX_RETRIES
      (fun _ => .response 429 (some "") (.json .missing "")) =
      ⟨.error (.rateLimit "Rate limit exceeded without Retry-After header."),
        1, []⟩ ∧
    "Rate limit exceeded without Retry-After header." ≠
      "Rate limit exceeded. Fail-fast chosen. Retry-After: " ++ "" := by
  exact ⟨by rfl, by decide⟩

/-- C1 amended: whenever the fetch loop reaches an attempt whose HTTP
response has status 429 (all earlier attempts, if any, being retryable
failures), the call terminates at that attempt with a `RateLimitError`
after exactly that one additional transport call, performing no sleep at
that attempt and no further attempts, regardless of the retry bound; when
the `Retry-After` header is present with a non-empty value the message
includes that value together with the fail-fast wording, and when the
header is absent — or present with an empty value, which the source's
truthiness test treats the same — the message notes the missing header. -/
theorem c1_429_fail_fast (mr k : Nat) (oracle : Nat → TransportResult)
    (ra : Option String) (body : Body) (hk : k < mr)
    (hlead : ∀ i, i < k → retryable (oracle i))
    (h429 : oracle k = .response 429 ra body) :
    fetchWith mr oracle =
      ⟨.error (.rateLimit (match ra with
          | some v =>
            if v = "" then
              "Rate limit exceeded without Retry-After header."
            else
              "Rate limit exceeded. Fail-fast chosen. Retry-After: " ++ v
          | none => "Rate limit exceeded without Retry-After header.")),
        k + 1, (List.range k).map backoff⟩ := by
  rw [fetchWith_skip mr oracle k hk hlead]
  have hrem : mr - k = (mr - (k + 1)) + 1 := by omega
  rw [hrem, goFetch_429_step mr oracle k (mr - (k + 1)) k
    ((List.range k).map backoff) ra body h429]
  cases ra with
  | none => rfl
  | some v =>
    by_cases hv : v = ""
    · simp only [if_pos hv]; rfl
    · simp only [if_neg hv]; rfl

/-- Witness for C1 at a concrete input: a first-attempt 429 with
`Retry-After: 5` under a bound of 5 attempts raises the fail-fast
`RateLimitError` after one call and no sleep. -/
theorem c1_witness :
    fetchWith 5 (fun _ => .response 429 (some "5") (.json .missing "")) =
      ⟨.error (.rateLimit
        ("Rate limit exceeded. Fail-fast chosen. Retry-After: " ++ "5")),
        1, []⟩ :=
  c1_429_fail_fast 5 0 _ (some "5") (.json .missing "") (by omega)
    (fun i hi => absurd hi (by omega)) rfl

set_option exponentiation.threshold 1100 in
/-- C2 counterexample: the claim as stated fails for an integer price
beyond binary64 range.  With zero leading failures and a success response
whose `price` field is the numeric value `10 ^ 400 > 0`, fetch does not
return that price: line 62's `float()` raises `OverflowError` and the
code raises the wrapped `PriceCriticalError` instead. -/
theorem c2_counterexample :
    (JsonPrice.jint (10 ^ 400)).isNumeric = true ∧ (0 : Int) < 10 ^ 400 ∧
    get_hyperliquid_price "BTC"
      (fun _ _ =>
        .response 200 none (.json (.jint (10 ^ 400)) "price: 1e400 int")) =
      ⟨.error (.critical (unexpectedMessage overflowMessage)), 1, []⟩ := by
  refine ⟨rfl, by positivity, ?_⟩
  have hov : ¬ |(10 ^ 400 : Int)| < FLOAT_OVERFLOW_BOUND := by
    unfold FLOAT_OVERFLOW_BOUND
    rw [abs_of_nonneg (show (0 : Int) ≤ 10 ^ 400 by positivity)]
    norm_num
  have hread : (JsonPrice.jint (10 ^ 400)).read = .overflow := by
    simp only [JsonPrice.read]
    rw [if_neg hov]
  unfold get_hyperliquid_price fetchWith
  exact goFetch_overflow_step MAX_RETRIES _ 0 2 0 [] 200 none
    (.jint (10 ^ 400)) "price: 1e400 int" rfl (by omega) hread

/-- C2 amended: a sequence of `k ≤ maxAttempts - 1` leading retryable
failures (5xx responses, timeouts or connection failures, in any mix)
followed by a success response whose price field is numeric, `> 0`, and
converted by line 62's `float()` without overflow (any float value, or an
int within binary64 range) makes fetch return that price, with exactly
`k + 1` transport calls and exactly `k` sleeps, the `i`-th sleep lasting
`BACKOFF_FACTOR * 2 ^ i` (0.5, 1.0, 2.0, ...). -/
theorem c2_retryable_then_success (symbol : String)
    (transport : String → Nat → TransportResult) (k status : Nat)
    (ra : Option String) (price : JsonPrice) (dataRepr : String)
    (p : PyFloat)
    (hk : k < MAX_RETRIES)
    (hlead : ∀ i, i < k → retryable (transport (priceUrl symbol) i))
    (hsucc : transport (priceUrl symbol) k =
      .response status ra (.json price dataRepr))
    (hstatus : status < 400)
    (hnum : price.read = .ok p) (hpos : p.pos = true) :
    get_hyperliquid_price symbol transport =
      ⟨.ok p, k + 1, (List.range k).map (fun i => BACKOFF_FACTOR * 2 ^ i)⟩ := by
  unfold get_hyperliquid_price
  rw [fetchWith_skip MAX_RETRIES _ k hk hlead]
  have hrem : MAX_RETRIES - k = (MAX_RETRIES - (k + 1)) + 1 := by omega
  rw [hrem, goFetch_success_step MAX_RETRIES _ k (MAX_RETRIES - (k + 1)) k
    ((List.range k).map backoff) status ra price dataRepr p hsucc hstatus
    hnum (PyFloat.not_nonpositive_of_pos p hpos)]
  rfl

/-- Witness for C2 at a concrete input: timeout, then 503, then a 200 with
price 100 yields 100 on the third call with two sleeps. -/
theorem c2_witness :
    get_hyperliquid_price "BTC"
      (fun _ i => if i = 0 then .timeout
        else if i = 1 then .response 503 none (.json .missing "")
        else .response 200 none (.json (.jnum (.finite 100)) "price: 100.0")) =
      ⟨.ok (.finite 100), 2 + 1,
        (List.range 2).map (fun i => BACKOFF_FACTOR * 2 ^ i)⟩ :=
  c2_retryable_then_success "BTC" _ 2 200 none (.jnum (.finite 100))
    "price: 100.0" (.finite 100) (by norm_num [MAX_RETRIES])
    (fun i hi => by
      interval_cases i
      · exact Or.inl rfl
      · exact Or.inr (Or.inr ⟨503, none, .json .missing "", rfl, by omega⟩))
    rfl (by omega) rfl (by norm_num [PyFloat.pos])

/-- C3: when all `MAX_RETRIES` attempts receive responses with status
`≥ 500`, fetch raises `PriceCriticalError` after exactly `MAX_RETRIES`
transport calls (sleeping after each non-final attempt), and the message
names the exhausted attempt count (it contains `3 attempts` for
`MAX_RETRIES = 3`) and the last status code observed. -/
theorem c3_all_5xx_exhaustion (symbol : String)
    (transport : String → Nat → TransportResult) (status : Nat → Nat)
    (ra : Nat → Option String) (body : Nat → Body)
    (hresp : ∀ i, i < MAX_RETRIES →
      transport (priceUrl symbol) i = .response (status i) (ra i) (body i))
    (h5xx : ∀ i, i < MAX_RETRIES → 500 ≤ status i) :
    get_hyperliquid_price symbol transport =
      ⟨.error (.critical (apiDownMessage MAX_RETRIES (status 2))),
        MAX_RETRIES, [backoff 0, backoff 1]⟩ ∧
    apiDownMessage MAX_RETRIES (status 2) =
      "API down: Failed after 3 attempts. Status: " ++ toString (status 2) := by
  constructor
  · unfold get_hyperliquid_price
    have hlead : ∀ i, i < 2 → retryable (transport (priceUrl symbol) i) :=
      fun i hi => Or.inr (Or.inr ⟨status i, ra i, body i,
        hresp i (by simp only [MAX_RETRIES]; omega),
        h5xx i (by simp only [MAX_RETRIES]; omega)⟩)
    rw [fetchWith_skip MAX_RETRIES _ 2 (by norm_num [MAX_RETRIES]) hlead]
    have hrem : MAX_RETRIES - 2 = 0 + 1 := by norm_num [MAX_RETRIES]
    rw [hrem, goFetch_5xx_last MAX_RETRIES _ 2 0 2
      ((List.range 2).map backoff) (status 2) (ra 2) (body 2)
      (hresp 2 (by norm_num [MAX_RETRIES]))
      (h5xx 2 (by norm_num [MAX_RETRIES])) (by norm_num [MAX_RETRIES])]
    rfl
  · unfold apiDownMessage
    congr 1

/-- Witness for C3 at a concrete input: three 500 responses raise the
API-down `PriceCriticalError` with call count 3. -/
theorem c3_witness :
    get_hyperliquid_price "SOL"
      (fun _ _ => .response 500 none (.invalid "not json")) =
      ⟨.error (.critical (apiDownMessage MAX_RETRIES 500)), MAX_RETRIES,
        [backoff 0, backoff 1]⟩ ∧
    apiDownMessage MAX_RETRIES 500 =
      "API down: Failed after 3 attempts. Status: " ++ toString 500 :=
  c3_all_5xx_exhaustion "SOL" _ (fun _ => 500) (fun _ => none)
    (fun _ => .invalid "not json") (fun _ _ => rfl)
    (fun _ _ => le_refl 500)

/-- C7: a response at a reached attempt with a 4xx status other than 429,
a success-status response whose body fails to decode as JSON, or any other
unexpected exception during request handling, makes fetch terminate
immediately at that attempt with a `PriceCriticalError` wrapping the
original cause, after exactly one transport call for that condition, with
no retry and no continuation of the loop. -/
theorem c7_unexpected_wrap (symbol : String)
    (transport : String → Nat → TransportResult) (k : Nat) (c : String)
    (hk : k < MAX_RETRIES)
    (hlead : ∀ i, i < k → retryable (transport (priceUrl symbol) i))
    (hcase :
      (∃ s ra b, transport (priceUrl symbol) k = .response s ra b ∧
        400 ≤ s ∧ s < 500 ∧ s ≠ 429 ∧ c = httpErrorMessage s) ∨
      (∃ s ra m, transport (priceUrl symbol) k =
          .response s ra (.invalid m) ∧ s < 400 ∧ c = m) ∨
      transport (priceUrl symbol) k = .otherException c) :
    get_hyperliquid_price symbol transport =
      ⟨.error (.critical (unexpectedMessage c)), k + 1,
        (List.range k).map backoff⟩ := by
  unfold get_hyperliquid_price
  rw [fetchWith_skip MAX_RETRIES _ k hk hlead]
  have hrem : MAX_RETRIES - k = (MAX_RETRIES - (k + 1)) + 1 := by omega
  rw [hrem]
  rcases hcase with ⟨s, ra, b, ho, h4, h5, h9, hc⟩ | ⟨s, ra, m, ho, hs, hc⟩ | ho
  · rw [hc]
    exact goFetch_4xx_step MAX_RETRIES _ k (MAX_RETRIES - (k + 1)) k
      ((List.range k).map backoff) s ra b ho h4 h5 h9
  · rw [hc]
    exact goFetch_invalid_step MAX_RETRIES _ k (MAX_RETRIES - (k + 1)) k
      ((List.range k).map backoff) s ra m ho hs
  · exact goFetch_otherExc_step MAX_RETRIES _ k (MAX_RETRIES - (k + 1)) k
      ((List.range k).map backoff) c ho

/-- Witness for C7 at a concrete input: a first-attempt 404 raises the
wrapping `PriceCriticalError` after one call. -/
theorem c7_witness :
    get_hyperliquid_price "DOGE"
      (fun _ _ => .response 404 none (.json .missing "")) =
      ⟨.error (.critical (unexpectedMessage (httpErrorMessage 404))), 1,
        []⟩ :=
  c7_unexpected_wrap "DOGE" _ 0 (httpErrorMessage 404)
    (by norm_num [MAX_RETRIES]) (fun i hi => absurd hi (by omega))
    (.inl ⟨404, none, .json .missing "", rfl, by omega, by omega, by omega,
      rfl⟩)

/-- C8: every fetch call terminates after at most `MAX_RETRIES` transport
calls, and its outcome is a returned price or one of the two error kinds
with a message produced by an explicit raise of the loop body — never the
defensive terminal `"Exhausted all retries without definite failure."`
error after the loop, which is therefore unreachable. -/
theorem c8_bounded_and_definite (symbol : String)
    (transport : String → Nat → TransportResult) :
    (get_hyperliquid_price symbol transport).calls ≤ MAX_RETRIES ∧
    definiteOutcome (get_hyperliquid_price symbol transport).outcome := by
  constructor
  · have h := goFetch_calls_le MAX_RETRIES (transport (priceUrl symbol))
      MAX_RETRIES 0 0 []
    simpa [get_hyperliquid_price, fetchWith] using h
  · have h := goFetch_definite MAX_RETRIES (transport (priceUrl symbol))
      MAX_RETRIES 0 0 [] (by norm_num [MAX_RETRIES]) (by omega)
    simpa [get_hyperliquid_price, fetchWith] using h

/-- C4 counterexample: the taxonomy declared in `src/exceptions.py` is not
flat.  The raised kind `RateLimitError` is not a direct subclass of the
common fetch-error root `PriceClientException`: its declared base class is
the intermediate class `TransientError`. -/
theorem c4_counterexample : ¬ rateLimitDirectlyUnderRoot := by
  unfold rateLimitDirectlyUnderRoot
  decide

/-- C4 amended: every non-success outcome of fetch is exactly one of the two
error kinds (`RateLimitError` or `PriceCriticalError`); no raw transport or
decoding exception escapes the fetch call.  However, the error classes do
not form a flat taxonomy: in `src/exceptions.py`, `RateLimitError` derives
from the root `PriceClientException` only through the intermediate class
`TransientError`, and `PriceCriticalError` is not declared in
`src/exceptions.py` at all. -/
theorem c4_amended (symbol : String)
    (transport : String → Nat → TransportResult) :
    ((∃ p, (get_hyperliquid_price symbol transport).outcome = .ok p) ∨
      (∃ m, (get_hyperliquid_price symbol transport).outcome =
        .error (.rateLimit m)) ∨
      (∃ m, (get_hyperliquid_price symbol transport).outcome =
        .error (.critical m))) ∧
    ExcClass.parent .RateLimitError = some .TransientError ∧
    ExcClass.parent .TransientError = some .PriceClientException ∧
    "PriceCriticalError" ∉ exceptionsDeclaredClasses := by
  refine ⟨?_, rfl, rfl, by decide⟩
  cases h : (get_hyperliquid_price symbol transport).outcome with
  | ok p => exact .inl ⟨p, rfl⟩
  | error e =>
    cases e with
    | rateLimit m => exact .inr (.inl ⟨m, rfl⟩)
    | critical m => exact .inr (.inr ⟨m, rfl⟩)
